import Mathlib

/-!
Verification of the stream-processing core of the WebRTC-to-SRT mixer
(`backend/src/utils/streamProcessor.ts` and its caller `backend/server.ts`).

The `StreamProcessor` class is shallowly embedded as pure functions over a
`World` record.  The `SP` record holds exactly the mutable fields of the
class; the surrounding `World` additionally tracks, for the purpose of
stating liveness properties, which subprocess pids have been spawned and are
still running (`live`), which have a writable stdin (`writable`), which exit
notifications are pending delivery (`pendingExit`), and a ghost counter
`restarts` that counts the automatic restarts that actually re-spawned a
subprocess from the crash / error handlers.

Asynchronous behaviour is modelled by explicit parameters: `spawnOk : Bool`
is the outcome of the `spawn` call (false models `spawn` raising
synchronously), `now : Nat` is the value of `Date.now()` at the call, and
write outcomes during a queue drain are given by a `WriteOutcome` oracle
list.  One platform fact is used: the asynchronous `spawn` coerces a
non-string element of its args array to a string (a null element becomes
the literal string "null"), so a `start` whose destination argument is the
null smuggled through `this.currentDestination!` really spawns, toward the
bogus sink "null"; a spawn therefore fails only when `spawn` itself raises,
and the destination is stored as given, null included.
-/

namespace StreamProc

/-- A binary media chunk; its payload is irrelevant, so chunks are named by
numbers. -/
abbrev Chunk := Nat

/-- Outcome of one `write` to the subprocess stdin, following
`StreamProcessor.writeChunk` (lines 167-191): the write callback succeeds
immediately, or `write` returns false (backpressure) and the promise
resolves true on the later `drain` event, or the write callback reports an
error. -/
inductive WriteOutcome
  | ok
  | blockedThenDrained
  | err
deriving DecidableEq

/-- Whether a write outcome counts as a successful delivery (`writeChunk`
resolves true on both the immediate-success and the after-drain paths). -/
def writeOk : WriteOutcome → Bool
  | .ok => true
  | .blockedThenDrained => true
  | .err => false

/-- The mutable fields of the `StreamProcessor` class (lines 4-12).
`ffmpeg` holds the pid of the owned subprocess handle; `currentStreamId`
holds the numeric `Date.now()` value that the source stringifies. -/
structure SP where
  ffmpeg : Option Nat
  writeQueue : List Chunk
  isWriting : Bool
  currentStreamId : Option Nat
  restartAttempts : Nat
  isShuttingDown : Bool
  currentDestination : Option String
deriving DecidableEq

/-- `maxRestartAttempts` (line 10). -/
def maxRestartAttempts : Nat := 3

/-- The session state together with the subprocess bookkeeping needed to
talk about liveness: `nextPid` numbers spawns, `live` lists running pids,
`writable` lists pids whose stdin is writable, `pendingExit` lists exit
events (pid, exit code) not yet delivered to the attached exit listener,
and `restarts` is a ghost counter of automatic restarts that re-spawned. -/
structure World where
  sp : SP
  nextPid : Nat
  live : List Nat
  writable : List Nat
  pendingExit : List (Nat × Option Int)
  restarts : Nat
deriving DecidableEq

/-- The freshly constructed `StreamProcessor` (the field defaults,
lines 4-12): no subprocess, empty queue, no destination. -/
def initWorld : World :=
  { sp := { ffmpeg := none, writeQueue := [], isWriting := false,
            currentStreamId := none, restartAttempts := 0,
            isShuttingDown := false, currentDestination := none },
    nextPid := 0, live := [], writable := [], pendingExit := [], restarts := 0 }

/-- `proc.kill(SIGKILL)` on pid `p`: if the process is still running it is
terminated (stdin no longer writable) and an exit notification with a null
exit code is queued for its exit listener; killing an already dead process
does nothing. -/
def killProc (w : World) (p : Nat) : World :=
  if p ∈ w.live then
    { w with
      live := w.live.filter (fun q => q != p),
      writable := w.writable.filter (fun q => q != p),
      pendingExit := w.pendingExit ++ [(p, none)] }
  else w

/-- A running subprocess exits on its own with exit code `code` (for a
crash, a non-zero code); the exit notification becomes pending. -/
def crash (w : World) (p : Nat) (code : Option Int) : World :=
  if p ∈ w.live then
    { w with
      live := w.live.filter (fun q => q != p),
      writable := w.writable.filter (fun q => q != p),
      pendingExit := w.pendingExit ++ [(p, code)] }
  else w

/-- `StreamProcessor.cleanupStream` (lines 85-98): if a subprocess handle is
owned, kill it and null the handle, the stream id, the queue and the
writing flag; otherwise do nothing. -/
def cleanupStream (w : World) : World :=
  match w.sp.ffmpeg with
  | none => w
  | some p =>
    let w1 := killProc w p
    { w1 with
      sp := { w1.sp with
              ffmpeg := none, currentStreamId := none,
              writeQueue := [], isWriting := false } }

/-- `StreamProcessor.start` (lines 100-165).  Returns null when shutting
down; otherwise spawns (the handle is overwritten without killing any
previously owned subprocess), records `Date.now()` as the stream id, stores
the destination as given — the null forwarded by `this.currentDestination!`
included, since `spawn` coerces a null args element to the string "null"
and spawns anyway — clears the queue and the writing flag, and resets
`restartAttempts` to 0.  A spawn that raises (modelled by `spawnOk =
false`) is caught and `null` is returned with every field untouched. -/
def start (w : World) (dest : Option String) (spawnOk : Bool) (now : Nat) :
    Option Nat × World :=
  if w.sp.isShuttingDown then (none, w)
  else if spawnOk then
    let p := w.nextPid
    (some now,
     { w with
       nextPid := p + 1, live := p :: w.live, writable := p :: w.writable,
       sp := { w.sp with
               ffmpeg := some p, currentStreamId := some now,
               currentDestination := dest, writeQueue := [], isWriting := false,
               restartAttempts := 0 } })
  else (none, w)

/-- `StreamProcessor.switchStream` (lines 68-83): kill the owned subprocess
if any and null the handle, clear the queue and the writing flag, then
delegate to `start`. -/
def switchStream (w : World) (dest : Option String) (spawnOk : Bool) (now : Nat) :
    Option Nat × World :=
  let w1 := match w.sp.ffmpeg with
    | some p =>
      let wk := killProc w p
      { wk with sp := { wk.sp with ffmpeg := none } }
    | none => w
  let w2 := { w1 with sp := { w1.sp with writeQueue := [], isWriting := false } }
  start w2 dest spawnOk now

/-- `StreamProcessor.stop` (lines 231-236): set the shutdown flag, run
`cleanupStream`, clear the shutdown flag, null the destination.  The
`restartAttempts` counter is not touched. -/
def stop (w : World) : World :=
  let w1 := { w with sp := { w.sp with isShuttingDown := true } }
  let w2 := cleanupStream w1
  { w2 with
    sp := { w2.sp with isShuttingDown := false, currentDestination := none } }

/-- `StreamProcessor.handleError` (lines 217-229): below the bound and not
shutting down, bump `restartAttempts` and, when both a handle and a
destination are present, clean up and re-invoke `start`; otherwise just
clean up.  The ghost `restarts` counter is bumped when the re-invoked
`start` actually spawned. -/
def handleError (w : World) (spawnOk : Bool) (now : Nat) : World :=
  if w.sp.isShuttingDown = false ∧ w.sp.restartAttempts < maxRestartAttempts then
    let w1 := { w with sp := { w.sp with restartAttempts := w.sp.restartAttempts + 1 } }
    if w1.sp.ffmpeg.isSome ∧ w1.sp.currentDestination.isSome then
      let w2 := cleanupStream w1
      let r := start w2 w2.sp.currentDestination spawnOk now
      if r.1.isSome then { r.2 with restarts := r.2.restarts + 1 } else r.2
    else w1
  else cleanupStream w

/-- The exit listener attached in `start` (lines 151-158): on a delivered
exit with a non-zero (or null) code, while not shutting down and below the
bound, bump `restartAttempts` and re-invoke `start` with
`this.currentDestination!`.  The ghost `restarts` counter is bumped when
that `start` actually spawned. -/
def exitHandler (w : World) (code : Option Int) (spawnOk : Bool) (now : Nat) : World :=
  if w.sp.isShuttingDown = false ∧ code ≠ some 0 ∧
      w.sp.restartAttempts < maxRestartAttempts then
    let w1 := { w with sp := { w.sp with restartAttempts := w.sp.restartAttempts + 1 } }
    let r := start w1 w1.sp.currentDestination spawnOk now
    if r.1.isSome then { r.2 with restarts := r.2.restarts + 1 } else r.2
  else w

/-- Delivery of a pending exit notification for pid `p`: the event is
consumed and the exit listener runs against the current session state. -/
def deliverExit (w : World) (p : Nat) (code : Option Int) (spawnOk : Bool) (now : Nat) :
    World :=
  if (p, code) ∈ w.pendingExit then
    exitHandler { w with pendingExit := w.pendingExit.erase (p, code) } code spawnOk now
  else w

/-- The stdin error listener attached in `start` (lines 144-149): an EPIPE
error is ignored entirely; any other stdin error feeds `handleError`. -/
def stdinErrorHandler (w : World) (code : String) (spawnOk : Bool) (now : Nat) : World :=
  if code = "EPIPE" then w else handleError w spawnOk now

/-- Whether `this.ffmpeg?.stdin?.writable` currently evaluates to true. -/
def stdinWritableNow (w : World) : Bool :=
  match w.sp.ffmpeg with
  | some p => decide (p ∈ w.writable)
  | none => false

/-- `StreamProcessor.processChunk` (lines 238-249): reject (returning false,
with nothing enqueued) when the stdin is not writable or the session is
shutting down; otherwise push the chunk on the queue (the scheduled drain is
a separate step, `processQueue`). -/
def processChunk (w : World) (c : Chunk) : Bool × World :=
  if stdinWritableNow w = false ∨ w.sp.isShuttingDown = true then (false, w)
  else (true, { w with sp := { w.sp with writeQueue := w.sp.writeQueue ++ [c] } })

/-- Enqueue a list of chunks by successive `processChunk` calls. -/
def enqueueAll (w : World) (cs : List Chunk) : World :=
  cs.foldl (fun a c => (processChunk a c).2) w

/-- `StreamProcessor.writeChunk` (lines 167-191) as a pure outcome: false
when the stdin is not writable or the session is shutting down, otherwise
the oracle outcome (true also on the backpressure-then-drain path). -/
def writeChunk (writable shuttingDown : Bool) (o : WriteOutcome) : Bool :=
  if writable = false ∨ shuttingDown = true then false else writeOk o

/-- The while loop of `StreamProcessor.processQueue` (lines 197-213), with
the writability and shutdown flags constant over the drain (an uninterrupted
period) and per-write outcomes supplied by `outs`.  Returns the chunks
delivered to the subprocess stdin, in order, and the final queue: the loop
exits keeping the queue when shutting down, and on a failed write the whole
remaining queue is discarded and the loop breaks. -/
def drainGo (writable shuttingDown : Bool) :
    List Chunk → List WriteOutcome → List Chunk × List Chunk
  | [], _ => ([], [])
  | c :: rest, outs =>
    if shuttingDown then ([], c :: rest)
    else
      match outs with
      | o :: outs' =>
        if writeChunk writable shuttingDown o then
          let p := drainGo writable shuttingDown rest outs'
          (c :: p.1, p.2)
        else ([], [])
      | [] => ([], [])

/-- `StreamProcessor.processQueue` (lines 193-215): an immediate return when
a drain is already in flight, the queue is empty, or the session is shutting
down; otherwise the drain loop runs and the writing flag ends false.
Returns the updated world and the chunks delivered to the subprocess. -/
def processQueue (w : World) (outs : List WriteOutcome) : World × List Chunk :=
  if w.sp.isWriting = true ∨ w.sp.writeQueue = [] ∨ w.sp.isShuttingDown = true then
    (w, [])
  else
    let r := drainGo (stdinWritableNow w) w.sp.isShuttingDown w.sp.writeQueue outs
    ({ w with sp := { w.sp with writeQueue := r.2, isWriting := false } }, r.1)

/-- One crash cycle of a subprocess that exits with code 1 immediately every
time it is spawned: the owned subprocess crashes and its exit notification
is delivered, the re-spawn succeeding. -/
def crashCycle (w : World) : World :=
  match w.sp.ffmpeg with
  | some p => deliverExit (crash w p (some 1)) p (some 1) true 0
  | none => w

/-- A session right after a successful explicit `start`. -/
def crashyWorld : World :=
  (start initWorld (some "srt://host:9000") true 0).2

/-- Invariant along the crash-restart loop: a subprocess is owned and live,
the session is not shutting down, a destination is recorded, and
`restartAttempts` is 0 (reset by the `start` of the previous restart). -/
def crashLoopInv (w : World) : Prop :=
  ∃ p, w.sp.ffmpeg = some p ∧ p ∈ w.live ∧ w.sp.isShuttingDown = false ∧
    w.sp.currentDestination.isSome = true ∧ w.sp.restartAttempts = 0

/-- Two explicit starts in a row, both spawns succeeding. -/
def doubleStartWorld : World :=
  (start (start initWorld (some "srt://host:9000") true 1).2
    (some "srt://host:9001") true 2).2

/-- An active session whose subprocess crashed and whose restart attempt
failed at the spawn, leaving `restartAttempts` at 1. -/
def attemptedRestartWorld : World :=
  deliverExit (crash (start initWorld (some "srt://host:9000") true 7).2 0 (some 1))
    0 (some 1) false 8

/-- A spawn failure (`spawn` raising, caught by the try block of `start`)
returns null and leaves every field of the session untouched. -/
theorem start_spawn_fail (w : World) (d : Option String) (n : Nat) :
    start w d false n = (none, w) := by
  unfold start
  split
  · rfl
  · simp

/-- After `stop` no subprocess handle is owned. -/
theorem stop_ffmpeg_none (w : World) : (stop w).sp.ffmpeg = none := by
  rcases w with ⟨⟨f, q, iw, sid, ra, sd, cd⟩, np, lv, wr, pe, rs⟩
  cases f <;> rfl

/-- Claim C5 (amended): when the spawn fails — that is, when `spawn` itself
raises and the try block of `start` catches it — `start` returns no
identifier and leaves the whole session state and world unchanged, so a
session with no owned subprocess stays `Idle` and no automatic restart can
follow the failure (no observers were attached to any new subprocess, and
nothing was spawned). -/
theorem C5_spawn_failure_leaves_state :
    ∀ (w : World) (d : Option String) (n : Nat), start w d false n = (none, w) :=
  start_spawn_fail

/-- Claim C5, counterexample to the claim as stated: a session owning a
live subprocess whose next `start` fails at the spawn returns no identifier
but keeps owning the running subprocess — the session state is unchanged,
not returned to `Idle`. -/
theorem C5_spawn_failure_not_idle :
    (start crashyWorld (some "srt://host:9001") false 4).1 = none ∧
    (start crashyWorld (some "srt://host:9001") false 4).2.sp.ffmpeg = some 0 ∧
    0 ∈ (start crashyWorld (some "srt://host:9001") false 4).2.live := by
  decide

/-- Claim C9 (amended): `processChunk` returns false and enqueues nothing
whenever the subprocess stdin is not writable or the session is shutting
down; in particular every chunk arriving on a fresh session (before any
`start` has set a destination) is rejected and not buffered, and so is
every chunk arriving in the state `stop` leaves behind — until the killed
subprocess's exit notification is delivered, whose restart re-spawns a
subprocess and makes chunks acceptable again (see the counterexample). -/
theorem C9_reject_unwritable :
    (∀ (w : World) (c : Chunk),
      stdinWritableNow w = false ∨ w.sp.isShuttingDown = true →
      processChunk w c = (false, w)) ∧
    (∀ c : Chunk, processChunk initWorld c = (false, initWorld)) ∧
    (∀ (w : World) (c : Chunk), processChunk (stop w) c = (false, stop w)) := by
  refine ⟨fun w c h => ?_, fun c => rfl, fun w c => ?_⟩
  · unfold processChunk
    rw [if_pos h]
  · unfold processChunk
    rw [if_pos]
    left
    unfold stdinWritableNow
    rw [stop_ffmpeg_none]

/-- Claim C9, witness: a chunk sent right after `start` followed by `stop`
is rejected with the state unchanged. -/
theorem C9_reject_unwritable_witness :
    processChunk (stop crashyWorld) 5 = (false, stop crashyWorld) :=
  C9_reject_unwritable.1 (stop crashyWorld) 5 (Or.inl (by decide))

/-- Claim C9, counterexample to the claim as stated: not every chunk
arriving after `stop` is rejected.  After `stop` kills the subprocess and
returns, the killed subprocess's exit notification (code null, shutdown
flag already cleared) triggers the exit listener, whose restart calls
`start` with the null destination — which `spawn` coerces to the string
"null" and spawns.  The session then owns a subprocess with a writable
stdin while `currentDestination` is still null, and the next chunk is
accepted and buffered. -/
theorem C9_accept_after_stop_respawn :
    (deliverExit (stop crashyWorld) 0 none true 9).sp.currentDestination = none ∧
    (processChunk (deliverExit (stop crashyWorld) 0 none true 9) 5).1 = true ∧
    (processChunk (deliverExit (stop crashyWorld) 0 none true 9) 5).2.sp.writeQueue
      = [5] := by
  decide

/-- Claim C10: an EPIPE error on the subprocess stdin is ignored entirely
(no restart attempt, no cleanup, nothing changes), while every other stdin
error feeds the bounded-restart handler `handleError`. -/
theorem C10_epipe_ignored :
    (∀ (w : World) (ok : Bool) (n : Nat), stdinErrorHandler w "EPIPE" ok n = w) ∧
    (∀ (w : World) (c : String) (ok : Bool) (n : Nat), c ≠ "EPIPE" →
      stdinErrorHandler w c ok n = handleError w ok n) := by
  constructor
  · intro w ok n
    simp [stdinErrorHandler]
  · intro w c ok n h
    simp [stdinErrorHandler, h]

/-- Claim C10, witness: an ECONNRESET stdin error goes to `handleError`,
and an EPIPE one is dropped. -/
theorem C10_epipe_ignored_witness :
    stdinErrorHandler crashyWorld "EPIPE" true 3 = crashyWorld ∧
    stdinErrorHandler crashyWorld "ECONNRESET" true 3 = handleError crashyWorld true 3 :=
  ⟨C10_epipe_ignored.1 crashyWorld true 3,
   C10_epipe_ignored.2 crashyWorld "ECONNRESET" true 3 (by decide)⟩

/-- Claim C2, counterexample: two consecutive successful `start` calls on
one session leave two live subprocesses — `start` overwrites the handle
without terminating the previously owned subprocess (only `switchStream`
and `stop` kill it), so the old one keeps running, orphaned. -/
theorem C2_two_live_after_double_start :
    doubleStartWorld.live.length = 2 ∧ 0 ∈ doubleStartWorld.live ∧
    doubleStartWorld.sp.ffmpeg = some 1 := by
  decide

/-- Claim C4, counterexample: `stop` does not reset `restartAttempts`.  In
a reachable session whose subprocess crashed and whose automatic restart
failed at the spawn, `restartAttempts` is 1, and after `stop` it is still 1
rather than 0. -/
theorem C4_stop_keeps_restartAttempts :
    attemptedRestartWorld.sp.restartAttempts = 1 ∧
    (stop attemptedRestartWorld).sp.restartAttempts = 1 := by
  decide

/-- Claim C6, counterexample: the stream id is `Date.now()`, so a
successful `start` and a successful `switch` observed in the same
millisecond return the same id, not distinct ones. -/
theorem C6_same_millisecond_same_id :
    (start initWorld (some "srt://host:9000") true 1000).1 = some 1000 ∧
    (switchStream (start initWorld (some "srt://host:9000") true 1000).2
      (some "srt://host:9001") true 1000).1 = some 1000 := by
  decide

/-- Claim C4 (amended): `stop` on any session state force-terminates the
owned subprocess if present (clearing the queue and the writing flag on
that path), clears the destination, and leaves a reusable `Idle` session
with the shutdown flag cleared; it is total (never raises) and a second
consecutive `stop` changes nothing.  `restartAttempts`, however, is left
unchanged, not reset to 0. -/
theorem C4_stop_cleanup : ∀ w : World,
    (stop w).sp.ffmpeg = none ∧
    (stop w).sp.isShuttingDown = false ∧
    (stop w).sp.currentDestination = none ∧
    (stop w).sp.restartAttempts = w.sp.restartAttempts ∧
    (w.sp.ffmpeg.isSome = true →
      (stop w).sp.writeQueue = [] ∧ (stop w).sp.isWriting = false) ∧
    (∀ p, w.sp.ffmpeg = some p → p ∉ (stop w).live) ∧
    stop (stop w) = stop w := by
  intro w
  rcases w with ⟨⟨f, q, iw, sid, ra, sd, cd⟩, np, lv, wr, pe, rs⟩
  cases f with
  | none =>
    refine ⟨rfl, rfl, rfl, rfl, fun h => by simp at h, fun p hp => by simp at hp, rfl⟩
  | some p =>
    by_cases hp : p ∈ lv
    · have hs : stop ⟨⟨some p, q, iw, sid, ra, sd, cd⟩, np, lv, wr, pe, rs⟩ =
          ⟨⟨none, [], false, none, ra, false, none⟩, np, lv.filter (fun x => x != p),
            wr.filter (fun x => x != p), pe ++ [(p, none)], rs⟩ := by
        simp [stop, cleanupStream, killProc, hp]
      rw [hs]
      refine ⟨rfl, rfl, rfl, rfl, fun _ => ⟨rfl, rfl⟩, ?_, rfl⟩
      intro p' hp'
      obtain rfl : p = p' := by simpa using hp'
      simp [List.mem_filter]
    · have hs : stop ⟨⟨some p, q, iw, sid, ra, sd, cd⟩, np, lv, wr, pe, rs⟩ =
          ⟨⟨none, [], false, none, ra, false, none⟩, np, lv, wr, pe, rs⟩ := by
        simp [stop, cleanupStream, killProc, hp]
      rw [hs]
      refine ⟨rfl, rfl, rfl, rfl, fun _ => ⟨rfl, rfl⟩, ?_, rfl⟩
      intro p' hp'
      obtain rfl : p = p' := by simpa using hp'
      exact hp

/-- Claim C4, witness: `stop` on an active session kills the subprocess,
clears the queue, ends `Idle`, and a second `stop` is a no-op. -/
theorem C4_stop_cleanup_witness :
    (stop crashyWorld).sp.ffmpeg = none ∧
    (stop crashyWorld).sp.writeQueue = [] ∧
    0 ∉ (stop crashyWorld).live ∧
    stop (stop crashyWorld) = stop crashyWorld := by
  have h := C4_stop_cleanup crashyWorld
  exact ⟨h.1, (h.2.2.2.2.1 (by decide)).1, h.2.2.2.2.2.1 0 (by decide), h.2.2.2.2.2.2⟩

/-- Claim C2 (amended): the session owns at most one subprocess handle, and
`switchStream` force-terminates the owned subprocess before spawning the
new one: the old pid is no longer live afterwards, and from a state whose
only live subprocess is the owned one, at most one subprocess is live after
the switch.  `start` itself, however, does not terminate the owned
subprocess, so an explicit `start` issued while one is live orphans it. -/
theorem C2_switch_kills_before_spawn :
    ∀ (w : World) (p : Nat) (d : Option String) (ok : Bool) (n : Nat),
    w.sp.ffmpeg = some p → p < w.nextPid →
    p ∉ ((switchStream w d ok n).2).live ∧
    (w.live = [p] → ((switchStream w d ok n).2).live.length ≤ 1) := by
  intro w p d ok n hf hlt
  rcases w with ⟨⟨f, q, iw, sid, ra, sd, cd⟩, np, lv, wr, pe, rs⟩
  replace hf : f = some p := hf
  subst hf
  replace hlt : p < np := hlt
  have hne : p ≠ np := Nat.ne_of_lt hlt
  by_cases hp : p ∈ lv
  · constructor
    · simp only [switchStream, killProc, start]
      simp [hp]
      split_ifs <;> simp [List.mem_filter, hne]
    · intro hl
      replace hl : lv = [p] := hl
      subst hl
      simp only [switchStream, killProc, start]
      simp [hp]
      split_ifs <;> simp
  · constructor
    · simp only [switchStream, killProc, start]
      simp [hp]
      split_ifs <;> simp [List.mem_filter, hne, hp]
    · intro hl
      replace hl : lv = [p] := hl
      subst hl
      simp at hp

/-- Claim C2, witness: switching away from the single live subprocess
leaves the old one dead and at most one subprocess live. -/
theorem C2_switch_kills_witness :
    0 ∉ ((switchStream crashyWorld (some "srt://host:9001") true 5).2).live ∧
    ((switchStream crashyWorld (some "srt://host:9001") true 5).2).live.length ≤ 1 := by
  have h := C2_switch_kills_before_spawn crashyWorld 0 (some "srt://host:9001") true 5
    (by decide) (by decide)
  exact ⟨h.1, h.2 (by decide)⟩

/-- Claim C6 (amended): the stream id returned by a successful start or
switch is the `Date.now()` value observed at the call, so a successful
`start` followed by a successful `switch` yields distinct ids exactly when
the two calls observe distinct clock readings; within one millisecond the
id repeats. -/
theorem C6_distinct_ids_distinct_clock :
    ∀ (w : World) (d1 d2 : String) (n1 n2 : Nat),
    w.sp.isShuttingDown = false → n1 ≠ n2 →
    (start w (some d1) true n1).1 = some n1 ∧
    (switchStream (start w (some d1) true n1).2 (some d2) true n2).1 = some n2 ∧
    (start w (some d1) true n1).1 ≠
      (switchStream (start w (some d1) true n1).2 (some d2) true n2).1 := by
  intro w d1 d2 n1 n2 hsd hne
  have h1 : (start w (some d1) true n1).1 = some n1 := by
    unfold start
    rw [if_neg (by simp [hsd])]
    simp
  have h2 : (switchStream (start w (some d1) true n1).2 (some d2) true n2).1 = some n2 := by
    unfold start switchStream
    rw [if_neg (by simp [hsd])]
    simp only
    unfold start killProc
    split_ifs <;> simp_all
  refine ⟨h1, h2, ?_⟩
  rw [h1, h2]
  simp [hne]

/-- Claim C6, witness: with distinct clock readings the start and switch
ids differ. -/
theorem C6_distinct_ids_witness :
    (start initWorld (some "srt://host:9000") true 1).1 ≠
      (switchStream (start initWorld (some "srt://host:9000") true 1).2
        (some "srt://host:9001") true 2).1 :=
  (C6_distinct_ids_distinct_clock initWorld "srt://host:9000" "srt://host:9001" 1 2
    (by decide) (by decide)).2.2

/-- In an `Active` session (writable stdin, not shutting down) a chunk is
accepted and appended to the tail of the queue, nothing else changing. -/
theorem processChunk_active (w : World) (c : Chunk)
    (hw : stdinWritableNow w = true) (hs : w.sp.isShuttingDown = false) :
    processChunk w c =
      (true, { w with sp := { w.sp with writeQueue := w.sp.writeQueue ++ [c] } }) := by
  unfold processChunk
  rw [if_neg]
  simp [hw, hs]

/-- Appending to the queue does not change what `stdinWritableNow` sees. -/
theorem stdinWritableNow_queue (w : World) (q : List Chunk) :
    stdinWritableNow { w with sp := { w.sp with writeQueue := q } } =
      stdinWritableNow w := by
  rcases w with ⟨⟨f, _, _, _, _, _, _⟩, _, _, _, _, _⟩
  cases f <;> rfl

/-- Enqueuing a burst of chunks in an `Active` session appends them all, in
order, at the tail of the queue. -/
theorem enqueueAll_active : ∀ (cs : List Chunk) (w : World),
    stdinWritableNow w = true → w.sp.isShuttingDown = false →
    enqueueAll w cs =
      { w with sp := { w.sp with writeQueue := w.sp.writeQueue ++ cs } } := by
  intro cs
  induction cs with
  | nil =>
    intro w hw hs
    show w = _
    simp
  | cons c cs ih =>
    intro w hw hs
    have hstep : (processChunk w c).2 =
        { w with sp := { w.sp with writeQueue := w.sp.writeQueue ++ [c] } } := by
      rw [processChunk_active w c hw hs]
    show enqueueAll (processChunk w c).2 cs = _
    rw [hstep]
    rw [ih { w with sp := { w.sp with writeQueue := w.sp.writeQueue ++ [c] } }
      (by rw [stdinWritableNow_queue] ; exact hw) hs]
    simp

/-- A drain in which every write succeeds (immediately or after a
backpressure wait) delivers the whole queue in order and empties it. -/
theorem drain_all_ok : ∀ (cs : List Chunk) (outs : List WriteOutcome),
    (∀ o ∈ outs, writeOk o = true) → cs.length ≤ outs.length →
    drainGo true false cs outs = (cs, []) := by
  intro cs
  induction cs with
  | nil => intro outs _ _; rfl
  | cons c rest ih =>
    intro outs h hl
    cases outs with
    | nil => simp at hl
    | cons o outs' =>
      have ho : writeOk o = true := h o (by simp)
      have h' : ∀ x ∈ outs', writeOk x = true := fun x hx => h x (by simp [hx])
      have hl' : rest.length ≤ outs'.length := by simpa using hl
      simp [drainGo, writeChunk, ho, ih outs' h' hl']

/-- A drain whose writes succeed up to position `i` and fail there delivers
exactly the first `i` chunks and discards the whole remaining queue. -/
theorem drain_err_at : ∀ (i : Nat) (cs : List Chunk) (outs : List WriteOutcome),
    i < cs.length →
    drainGo true false cs
      (List.replicate i WriteOutcome.ok ++ WriteOutcome.err :: outs) = (cs.take i, []) := by
  intro i
  induction i with
  | zero =>
    intro cs outs h
    cases cs with
    | nil => simp at h
    | cons c rest => simp [drainGo, writeChunk, writeOk]
  | succ i ih =>
    intro cs outs h
    cases cs with
    | nil => simp at h
    | cons c rest =>
      have h' : i < rest.length := by simpa using h
      simp [drainGo, writeChunk, writeOk, List.replicate_succ, ih rest outs h']

/-- Claim C7: chunks enqueued in order during an uninterrupted `Active`
period are all accepted, queued in that order, and — when no write fails,
backpressure waits included — the drain delivers exactly that sequence to
the subprocess stdin, in order and without duplication, emptying the
queue. -/
theorem C7_in_order_delivery :
    ∀ (w : World) (cs : List Chunk) (outs : List WriteOutcome),
    stdinWritableNow w = true → w.sp.isShuttingDown = false →
    w.sp.isWriting = false → w.sp.writeQueue = [] →
    (∀ o ∈ outs, writeOk o = true) → cs.length ≤ outs.length →
    (∀ c : Chunk, (processChunk w c).1 = true) ∧
    (processQueue (enqueueAll w cs) outs).2 = cs ∧
    (processQueue (enqueueAll w cs) outs).1.sp.writeQueue = [] := by
  intro w cs outs hw hs hiw hq hall hlen
  have hacc : ∀ c : Chunk, (processChunk w c).1 = true := by
    intro c
    rw [processChunk_active w c hw hs]
  have he := enqueueAll_active cs w hw hs
  rw [he]
  cases cs with
  | nil =>
    refine ⟨hacc, ?_, ?_⟩ <;> simp [processQueue, hq, hiw, hs]
  | cons c0 cs' =>
    have hd := drain_all_ok (c0 :: cs') outs hall hlen
    have hwq : ({ w with
        sp := { w.sp with writeQueue := w.sp.writeQueue ++ c0 :: cs' } } : World).sp.writeQueue
        = c0 :: cs' := by
      rw [show ({ w with
        sp := { w.sp with writeQueue := w.sp.writeQueue ++ c0 :: cs' } } : World).sp.writeQueue
        = w.sp.writeQueue ++ c0 :: cs' from rfl, hq]
      rfl
    have hw' : stdinWritableNow
        { w with sp := { w.sp with writeQueue := w.sp.writeQueue ++ c0 :: cs' } } = true := by
      rw [stdinWritableNow_queue]
      exact hw
    have hpq : processQueue
        { w with sp := { w.sp with writeQueue := w.sp.writeQueue ++ c0 :: cs' } } outs =
        ({ w with sp := { w.sp with writeQueue := [], isWriting := false } }, c0 :: cs') := by
      unfold processQueue
      rw [if_neg (by simp [hwq, hiw, hs])]
      rw [hwq, hw']
      rw [show ({ w with
        sp := { w.sp with writeQueue := w.sp.writeQueue ++ c0 :: cs' } } : World).sp.isShuttingDown
        = w.sp.isShuttingDown from rfl, hs, hd]
    rw [hpq]
    exact ⟨hacc, rfl, rfl⟩

/-- Claim C7, witness: three chunks enqueued while active, the middle write
seeing transient backpressure, are all delivered in order. -/
theorem C7_in_order_delivery_witness :
    (processQueue (enqueueAll crashyWorld [1, 2, 3])
      [WriteOutcome.ok, WriteOutcome.blockedThenDrained, WriteOutcome.ok]).2
      = [1, 2, 3] :=
  (C7_in_order_delivery crashyWorld [1, 2, 3]
    [WriteOutcome.ok, WriteOutcome.blockedThenDrained, WriteOutcome.ok]
    (by decide) (by decide) (by decide) (by decide) (by decide) (by decide)).2.1

/-- Claim C8: when the write at position `i` of a drain fails (not mere
backpressure), exactly the chunks before it were delivered; the failed
chunk and the entire remaining queue are dropped as a unit, the drain
stops, and the session stays usable — the next chunk is accepted again. -/
theorem C8_write_failure_drops_queue :
    ∀ (w : World) (cs : List Chunk) (i : Nat) (outs : List WriteOutcome) (c : Chunk),
    stdinWritableNow w = true → w.sp.isShuttingDown = false →
    w.sp.isWriting = false → w.sp.writeQueue = cs → i < cs.length →
    (processQueue w (List.replicate i WriteOutcome.ok ++ WriteOutcome.err :: outs)).2
      = cs.take i ∧
    (processQueue w
      (List.replicate i WriteOutcome.ok ++ WriteOutcome.err :: outs)).1.sp.writeQueue
      = [] ∧
    (processChunk
      (processQueue w (List.replicate i WriteOutcome.ok ++ WriteOutcome.err :: outs)).1
      c).1 = true := by
  intro w cs i outs c hw hs hiw hq hi
  have hcs : cs ≠ [] := by
    intro h
    rw [h] at hi
    simp at hi
  have hd := drain_err_at i cs outs hi
  have hpq : processQueue w (List.replicate i WriteOutcome.ok ++ WriteOutcome.err :: outs)
      = ({ w with sp := { w.sp with writeQueue := [], isWriting := false } }, cs.take i) := by
    unfold processQueue
    rw [if_neg (by simp [hiw, hq, hs, hcs])]
    rw [hq, hw, hs, hd]
  rw [hpq]
  refine ⟨rfl, rfl, ?_⟩
  rw [processChunk_active]
  · rw [show stdinWritableNow { w with sp := { w.sp with writeQueue := [], isWriting := false } }
        = stdinWritableNow w from by rcases w with ⟨⟨f, _, _, _, _, _, _⟩, _, _, _, _, _⟩ ; cases f <;> rfl]
    exact hw
  · exact hs

/-- Claim C8, witness: with a queue of three chunks and the second write
failing, only the first chunk is delivered, the queue is emptied, and the
next chunk is still accepted. -/
theorem C8_write_failure_witness :
    (processQueue (enqueueAll crashyWorld [1, 2, 3])
      (List.replicate 1 WriteOutcome.ok ++ WriteOutcome.err :: [])).2 = [1] :=
  (C8_write_failure_drops_queue (enqueueAll crashyWorld [1, 2, 3]) [1, 2, 3] 1 [] 9
    (by decide) (by decide) (by decide) (by decide) (by decide)).1

/-- Claim C3, evaluation at the failing input: `stop` on an active session
kills the subprocess and returns with the shutdown flag already cleared and
`restartAttempts` untouched, leaving the killed subprocess's exit
notification (exit code null) pending.  When that notification is
delivered, the exit listener's guard passes (flag false, null is not 0,
`restartAttempts` below the bound), so it increments `restartAttempts` and
re-invokes `start` with `this.currentDestination!` — null, which `spawn`
coerces to the string "null" — and a subprocess really is re-spawned after
`stop`, owned by the session, with no destination recorded and with
`restartAttempts` reset to 0 by `start`, ready to loop again.  This
contradicts the claim (and the evident purpose of the listener's
`isShuttingDown` guard): an automatic restart does occur after `stop`
without any new explicit start or switch. -/
theorem C3_respawn_after_stop :
    (stop crashyWorld).sp.isShuttingDown = false ∧
    (stop crashyWorld).sp.restartAttempts = 0 ∧
    (0, (none : Option Int)) ∈ (stop crashyWorld).pendingExit ∧
    (deliverExit (stop crashyWorld) 0 none true 9).sp.ffmpeg = some 1 ∧
    1 ∈ (deliverExit (stop crashyWorld) 0 none true 9).live ∧
    (deliverExit (stop crashyWorld) 0 none true 9).restarts = 1 ∧
    (deliverExit (stop crashyWorld) 0 none true 9).sp.currentDestination = none := by
  decide

/-- One crash of the always-crashing subprocess, delivered to the exit
listener, performs one automatic restart and restores the crash-loop
invariant — in particular `restartAttempts` is back at 0, because the
restart went through `start`, which resets it. -/
theorem crashCycle_step (w : World) (h : crashLoopInv w) :
    crashLoopInv (crashCycle w) ∧ (crashCycle w).restarts = w.restarts + 1 := by
  obtain ⟨p, hf, hl, hs, hd, hr⟩ := h
  rcases w with ⟨⟨f, q, iw, sid, ra, sd, cd⟩, np, lv, wr, pe, rs⟩
  replace hf : f = some p := hf
  subst hf
  replace hs : sd = false := hs
  subst hs
  replace hr : ra = 0 := hr
  subst hr
  replace hl : p ∈ lv := hl
  rcases cd with _ | d
  · simp at hd
  · constructor
    · refine ⟨np, ?_, ?_, ?_, ?_, ?_⟩ <;>
        simp [crashCycle, crash, deliverExit, exitHandler, start, maxRestartAttempts, hl]
    · simp [crashCycle, crash, deliverExit, exitHandler, start, maxRestartAttempts, hl]

/-- Iterating the crash cycle from a freshly started session keeps the
crash-loop invariant and performs one automatic restart per crash: after n
crashes, n restarts. -/
theorem crashLoop_iterate : ∀ n : Nat,
    crashLoopInv (crashCycle^[n] crashyWorld) ∧
    (crashCycle^[n] crashyWorld).restarts = n := by
  intro n
  induction n with
  | zero => exact ⟨⟨0, rfl, by decide, rfl, rfl, rfl⟩, rfl⟩
  | succ n ih =>
    rw [Function.iterate_succ_apply']
    obtain ⟨hinv, hr⟩ := ih
    obtain ⟨hinv', hr'⟩ := crashCycle_step _ hinv
    refine ⟨hinv', ?_⟩
    rw [hr', hr]

/-- Claim C1: the 3-restart bound is defeated by the code.  Because every
automatic restart goes through `start`, and `start` resets
`restartAttempts` to 0, the exit-listener guard `restartAttempts <
maxRestartAttempts` always sees 0 and a subprocess that exits non-zero
immediately every time it is spawned is restarted on every crash without
bound: after n crashes the session has performed n automatic restarts, for
every n — not at most 3. -/
theorem C1_restart_bound_defeated :
    ∀ n : Nat, (crashCycle^[n] crashyWorld).restarts = n :=
  fun n => (crashLoop_iterate n).2

end StreamProc
